import Mathlib

/-!
Shallow embedding of the aggregation and selection-state engine of
`src/dashboard.py` (a Dash dashboard over Norwegian municipality
material-stock and emissions data), together with theorems settling the
specification claims about it.

Modelling conventions:

* A row of the merged pandas `DataFrame` is a `Row`; a data frame is a
  `List Row`.  The numeric value columns are rationals (`ℚ`): every
  arithmetic step the engine performs (division by constants, sums,
  rounding to one decimal) is exact on rationals.
* `np.log10` is kept symbolic: the embedding stores the exact clipped
  argument (`logInput`) that the source passes to `np.log10`, and the
  theorems speak about `Real.logb 10` of that argument.
* Python truthiness of the selection values (`if selected_material: ...`)
  is modelled exactly: `None` and the empty string are falsy, every other
  string is truthy.
* The module-level globals (`df`, `municipals`, `precomputed_maps`) are
  passed as explicit arguments; the in-place pandas column assignment that
  `update_dashboard` performs on the shared precomputed frame when the
  selected material is exactly "TOTAL" (lines 182-196: neither `.loc`
  reassignment runs, so `df_map` stays an alias of
  `precomputed_maps[(metric, scenario)]`) is modelled by returning the
  updated table state next to the outputs.
* pandas `groupby` emits its groups sorted by key; the embedding
  enumerates group keys in order of first appearance.  No claim depends on
  the order of output rows, only on which (key, aggregated value) pairs
  occur, and the enumeration is deterministic either way.
* `municipals.set_index(...).at[...]` raises `KeyError` for an absent
  code; the looked-up display name is therefore an `Option String`,
  `none` in that (never-exercised-by-claims) case.
-/

namespace MaterialsDashboard

/-- The three scenario columns per metric (`mean` / `max` / `min`). -/
inductive Scenario
  | mean
  | max
  | min
deriving DecidableEq

/-- The three metrics of the metric dropdown. -/
inductive Metric
  | material_stock
  | material_emissions
  | manufacturing_emissions
deriving DecidableEq

/-- One row of `data/merged_df_dashboard.csv` as the engine sees it: the
categorical key columns and the nine numeric `{metric}_{scenario}` value
columns (source lines 12-20). -/
structure Row where
  kommunenum : String
  material : String
  energy_carrier : String
  type : String
  cohort : String
  material_stock_mean : ℚ
  material_stock_max : ℚ
  material_stock_min : ℚ
  material_emissions_mean : ℚ
  material_emissions_max : ℚ
  material_emissions_min : ℚ
  manufacturing_emissions_mean : ℚ
  manufacturing_emissions_max : ℚ
  manufacturing_emissions_min : ℚ
deriving DecidableEq

/-- The columns of the `municipals` GeoDataFrame the engine reads. -/
structure Muni where
  kommunenum : String
  kommunenav : String
deriving DecidableEq

/-- `df.loc[:, df.columns.str.startswith('manufacturing_emissions_')] /= 10`
(source line 13): the load-time unit fix divides exactly the three
`manufacturing_emissions_*` columns by 10 and leaves every other column
untouched. -/
def loadRow (r : Row) : Row :=
  { r with
    manufacturing_emissions_mean := r.manufacturing_emissions_mean / 10
    manufacturing_emissions_max := r.manufacturing_emissions_max / 10
    manufacturing_emissions_min := r.manufacturing_emissions_min / 10 }

/-- The column `f"{metric}_{scenario}"` of a row (source lines 37, 179). -/
def value_col (metric : Metric) (scenario : Scenario) (r : Row) : ℚ :=
  match metric, scenario with
  | .material_stock, .mean => r.material_stock_mean
  | .material_stock, .max => r.material_stock_max
  | .material_stock, .min => r.material_stock_min
  | .material_emissions, .mean => r.material_emissions_mean
  | .material_emissions, .max => r.material_emissions_max
  | .material_emissions, .min => r.material_emissions_min
  | .manufacturing_emissions, .mean => r.manufacturing_emissions_mean
  | .manufacturing_emissions, .max => r.manufacturing_emissions_max
  | .manufacturing_emissions, .min => r.manufacturing_emissions_min

/-- Floor of a rational as an integer (the denominator is positive, so the
floored integer division of numerator by denominator is the floor). -/
def ratFloor (x : ℚ) : ℤ := Int.fdiv x.num (x.den : ℤ)

/-- Round to the nearest integer, ties to even — the rounding used by
`pandas.Series.round` / `np.round`. -/
def roundHalfEven (x : ℚ) : ℤ :=
  let f := ratFloor x
  let frac := x - (f : ℚ)
  if frac < 1/2 then f
  else if 1/2 < frac then f + 1
  else if f % 2 = 0 then f else f + 1

/-- `.round(1)`: round to one decimal place. -/
def round1 (x : ℚ) : ℚ := (roundHalfEven (x * 10) : ℚ) / 10

/-- Python truthiness of an optional string: `None` and `""` are falsy,
every other string is truthy. -/
def truthy : Option String → Bool
  | none => false
  | some s => !s.isEmpty

/-- The distinct elements of a list in order of first appearance: the group
keys of a pandas `groupby` (which pandas emits sorted; no claim depends on
the order of the groups). -/
def firstKeys [DecidableEq α] : List α → List α
  | [] => []
  | a :: t => a :: (firstKeys t).filter (fun b => decide (b ≠ a))

/-- One row of a precomputed aggregate table (source lines 34-41): the
group key, the summed value column, and the left-joined municipality
display name (`none` where pandas would store NaN for an unmatched code). -/
structure MapRow where
  kommunenum : String
  material : String
  value : ℚ
  kommunenav : Option String
deriving DecidableEq

/-- `precomputed_maps[(metric, scenario)]` (source lines 34-41):
`df.groupby(["kommunenum", "material"], as_index=False)[value_col].sum()`
merged left with `municipals[["kommunenum", "kommunenav"]]` on
`kommunenum` (municipality codes are unique in `municipals`). -/
def precomputed_maps (df : List Row) (municipals : List Muni)
    (metric : Metric) (scenario : Scenario) : List MapRow :=
  (firstKeys (df.map (fun r => (r.kommunenum, r.material)))).map (fun k =>
    { kommunenum := k.1
      material := k.2
      value := ((df.filter (fun r => r.kommunenum == k.1 && r.material == k.2)).map
        (value_col metric scenario)).sum
      kommunenav := (municipals.find? (fun mu => mu.kommunenum == k.1)).map
        (fun mu => mu.kommunenav) })

/-- `chart_mode` as set by the metric dispatch (source lines 154-177). -/
inductive ChartMode
  | material
  | energy_type
deriving DecidableEq

def chart_mode : Metric → ChartMode
  | .material_stock => .material
  | .material_emissions => .material
  | .manufacturing_emissions => .energy_type

/-- The working record set `df_filtered` (source lines 160, 168, 176 and
185-186): the two material metrics keep only `energy_carrier == "TOTAL"`
rows, manufacturing emissions keeps every row; then
`if selected_material and selected_material != "TOTAL"` — a present,
non-empty material other than "TOTAL" — filters to that material. -/
def df_filtered (df : List Row) (metric : Metric)
    (selected_material : Option String) : List Row :=
  let base := match chart_mode metric with
    | ChartMode.material => df.filter (fun r => r.energy_carrier == "TOTAL")
    | ChartMode.energy_type => df
  match selected_material with
  | some m => if m ≠ "" ∧ m ≠ "TOTAL" then base.filter (fun r => r.material == m) else base
  | none => base

/-- The map-table selection on the precomputed table (source lines
182-191): the same material filter, then `if not selected_material`
(absent or empty) defaults the view to `material == "TOTAL"`.  A selected
material equal to the literal string "TOTAL" takes neither branch. -/
def df_map_rows (tbl : List MapRow) (selected_material : Option String) : List MapRow :=
  let t1 := match selected_material with
    | some m => if m ≠ "" ∧ m ≠ "TOTAL" then tbl.filter (fun r => r.material == m) else tbl
    | none => tbl
  match selected_material with
  | some m => if m = "" then t1.filter (fun r => r.material == "TOTAL") else t1
  | none => t1.filter (fun r => r.material == "TOTAL")

/-- A row of the derived map table after source lines 194-196:
`df_map[value_col] = (df_map[value_col] / divisor).round(1)` and
`df_map["log_" + value_col] = np.log10(df_map[value_col].clip(lower=1e-6))`.
`logInput` is the exact clipped argument handed to `np.log10`. -/
structure MapOutRow where
  kommunenum : String
  material : String
  value : ℚ
  logInput : ℚ
  kommunenav : Option String
deriving DecidableEq

def scale_map_row (r : MapRow) : MapOutRow :=
  let v := round1 (r.value / 1000000)
  { kommunenum := r.kommunenum
    material := r.material
    value := v
    logInput := max v (1/1000000)
    kommunenav := r.kommunenav }

/-- The effect of source line 194 on the shared precomputed frame itself in
the aliasing case (selected material exactly "TOTAL"): the stored value
column is overwritten by its scaled, rounded version.  (Line 196 also adds
a `log_` column to the shared frame; only the value column is tracked in
the table state, and it alone already changes.) -/
def mutate_map (tbl : List MapRow) : List MapRow :=
  tbl.map (fun r => { r with value := round1 (r.value / 1000000) })

/-- `sub`: the working set restricted by the selected municipality (source
lines 232-237); `if selected_muni:` is Python-falsy for `None` and `""`. -/
def muni_sub (work : List Row) (selected_muni : Option String) : List Row :=
  match selected_muni with
  | some m => if m = "" then work else work.filter (fun r => r.kommunenum == m)
  | none => work

/-- `total_val` (source lines 239-247): sum the relevant TOTAL rows of
`sub`, falling back to all of `sub` when there are none, and scale by the
divisor 1,000,000. -/
def total_val (df : List Row) (metric : Metric) (scenario : Scenario)
    (selected_muni selected_material : Option String) : ℚ :=
  let sub := muni_sub (df_filtered df metric selected_material) selected_muni
  let sub_total : List Row := match chart_mode metric with
    | ChartMode.material => sub.filter (fun r => r.material == "TOTAL")
    | ChartMode.energy_type => sub.filter (fun r => r.energy_carrier == "TOTAL")
  (if sub_total.isEmpty then (sub.map (value_col metric scenario)).sum
   else (sub_total.map (value_col metric scenario)).sum) / 1000000

/-- A row of chart 1 in material mode (source lines 274-283): the primary
value plus the contextual hover columns, which the source always computes
from the `*_mean` columns. -/
structure Chart1MatRow where
  material : String
  value : ℚ
  stock : ℚ
  emissions : ℚ
deriving DecidableEq

def chart1_material_rows (sub : List Row) (metric : Metric) (scenario : Scenario) :
    List Chart1MatRow :=
  let data1 := sub.filter (fun r => r.material != "TOTAL")
  (firstKeys (data1.map (fun r => r.material))).map (fun m =>
    let grp := data1.filter (fun r => r.material == m)
    { material := m
      value := round1 (round1 ((grp.map (value_col metric scenario)).sum) / 1000000)
      stock := round1 ((grp.map (fun r => r.material_stock_mean)).sum / 1000000)
      emissions := round1 ((grp.map (fun r => r.material_emissions_mean)).sum / 1000000) })

/-- A row of chart 1 in energy mode (source lines 303-306). -/
structure Chart1EnergyRow where
  type : String
  energy_carrier : String
  value : ℚ
deriving DecidableEq

def chart1_energy_rows (sub : List Row) (metric : Metric) (scenario : Scenario) :
    List Chart1EnergyRow :=
  let data1 := sub.filter (fun r => r.energy_carrier != "TOTAL")
  (firstKeys (data1.map (fun r => (r.type, r.energy_carrier)))).map (fun k =>
    let grp := data1.filter (fun r => r.type == k.1 && r.energy_carrier == k.2)
    { type := k.1
      energy_carrier := k.2
      value := round1 ((grp.map (value_col metric scenario)).sum / 1000000) })

/-- A row of chart 2 (source lines 319-326). -/
structure Chart2Row where
  type : String
  cohort : String
  value : ℚ
deriving DecidableEq

def chart2_rows (sub : List Row) (metric : Metric) (scenario : Scenario) : List Chart2Row :=
  let data2 : List Row := match chart_mode metric with
    | ChartMode.material => sub.filter (fun r => r.material != "TOTAL")
    | ChartMode.energy_type => sub.filter (fun r => r.energy_carrier != "TOTAL")
  (firstKeys (data2.map (fun r => (r.type, r.cohort)))).map (fun k =>
    let grp := data2.filter (fun r => r.type == k.1 && r.cohort == k.2)
    { type := k.1
      cohort := k.2
      value := round1 ((grp.map (value_col metric scenario)).sum / 1000000) })

/-- The `hover` flags of chart 1 (source lines 285-289). -/
structure Chart1Hover where
  emissions : Bool
  stock : Bool
deriving DecidableEq

def chart1_hover (metric : Metric) : Chart1Hover :=
  let h : Chart1Hover := { emissions := false, stock := false }
  let h := if metric = Metric.material_stock then { emissions := true, stock := false } else h
  if metric = Metric.material_emissions then { emissions := false, stock := true } else h

/-- The numeric chart-1 table, in whichever of the two modes is active. -/
inductive Chart1Table
  | material (rows : List Chart1MatRow) (hover : Chart1Hover)
  | energy (rows : List Chart1EnergyRow)
deriving DecidableEq

/-- `municipals.set_index("kommunenum").at[code, "kommunenav"]` (source
line 233); the source raises `KeyError` when the code is absent, modelled
as `none`. -/
def muni_display (municipals : List Muni) (code : String) : Option String :=
  (municipals.find? (fun mu => mu.kommunenum == code)).map (fun mu => mu.kommunenav)

/-- The numeric content of the four outputs of `update_dashboard`: the map
table, the highlighted municipality overlay, the two chart tables and the
summary scalar with the municipality name used in its label. -/
structure DashOutput where
  mapTable : List MapOutRow
  highlight : Option String
  chart1 : Chart1Table
  chart2 : List Chart2Row
  summary : ℚ
  muni_name : Option String
deriving DecidableEq

/-- `update_dashboard` (source lines 150-342), as a function of the raw
data, the municipality table, the four callback inputs and the current
state of the precomputed tables.  It returns the derived numeric outputs
together with the post-call state of the precomputed tables: when the
selected material is exactly "TOTAL", neither reassignment on lines
185-191 runs, `df_map` stays an alias of
`precomputed_maps[(metric, scenario)]`, and line 194 overwrites that
shared frame's value column in place. -/
def update_dashboard (df : List Row) (municipals : List Muni)
    (scenario : Scenario) (metric : Metric)
    (selected_muni selected_material : Option String)
    (maps : Metric → Scenario → List MapRow) :
    DashOutput × (Metric → Scenario → List MapRow) :=
  let base := maps metric scenario
  let mapTable := (df_map_rows base selected_material).map scale_map_row
  let maps' := if selected_material = some "TOTAL" then
      (fun me sc => if me = metric ∧ sc = scenario then mutate_map base else maps me sc)
    else maps
  let sub := muni_sub (df_filtered df metric selected_material) selected_muni
  let out : DashOutput := {
    mapTable := mapTable
    highlight := if truthy selected_muni then selected_muni else none
    chart1 := match chart_mode metric with
      | ChartMode.material =>
          Chart1Table.material (chart1_material_rows sub metric scenario) (chart1_hover metric)
      | ChartMode.energy_type => Chart1Table.energy (chart1_energy_rows sub metric scenario)
    chart2 := chart2_rows sub metric scenario
    summary := total_val df metric scenario selected_muni selected_material
    muni_name := match selected_muni with
      | some m => if m = "" then some "all Norway" else muni_display municipals m
      | none => some "all Norway" }
  (out, maps')

/-- The selection state kept in the two `dcc.Store` components. -/
structure SelState where
  muni : Option String
  material : Option String
deriving DecidableEq

/-- `update_selections` (source lines 115-135): the pure reducer over the
current selection state and one event batch.  `triggered` is the list of
component ids in `ctx.triggered`; `map_click` / `bar_click` are the click
payloads (`none` models an absent / `None` `clickData`, whose truthiness
check makes the click a no-op). -/
def update_selections (map_click bar_click : Option String)
    (triggered : List String) (current : SelState) : SelState :=
  let muni_sel := if "norway-map" ∈ triggered ∧ map_click.isSome then map_click
    else current.muni
  let mat_sel := if "chart-material-type" ∈ triggered ∧ bar_click.isSome then bar_click
    else current.material
  let muni_sel := if "reset-button" ∈ triggered then none else muni_sel
  let mat_sel := if "reset-material-button" ∈ triggered then none else mat_sel
  { muni := muni_sel, material := mat_sel }

/-! ### Concrete sample data

A small data set in the shape of the real one: Oslo ("0301") with a
reserved TOTAL row and one concrete material ("wood"), raw magnitudes as
in the spec's end-to-end example (§8). -/

/-- Oslo's TOTAL row: TOTAL material, TOTAL energy carrier. -/
def row0301 : Row :=
  { kommunenum := "0301", material := "TOTAL", energy_carrier := "TOTAL"
    type := "house", cohort := "1990s"
    material_stock_mean := 5000000, material_stock_max := 6000000
    material_stock_min := 4000000
    material_emissions_mean := 7000000, material_emissions_max := 8000000
    material_emissions_min := 6000000
    manufacturing_emissions_mean := 900000, manufacturing_emissions_max := 950000
    manufacturing_emissions_min := 850000 }

/-- Oslo's wood row: one concrete material, TOTAL energy carrier. -/
def rowWood : Row :=
  { row0301 with
    material := "wood"
    material_stock_mean := 2000000, material_stock_max := 2500000
    material_stock_min := 1500000
    material_emissions_mean := 3000000, material_emissions_max := 3500000
    material_emissions_min := 2500000 }

def df0 : List Row := [row0301, rowWood]

def munis0 : List Muni := [{ kommunenum := "0301", kommunenav := "Oslo" }]

/-- A one-row precomputed-table state used by the C6 witness. -/
def maps5 : Metric → Scenario → List MapRow := fun _ _ =>
  [{ kommunenum := "0301", material := "TOTAL", value := 5000000, kommunenav := some "Oslo" }]

/-- The map-table row the C6 witness exhibits. -/
def r5 : MapOutRow :=
  { kommunenum := "0301", material := "TOTAL", value := 5, logInput := 5
    kommunenav := some "Oslo" }

/-- Projection of chart 1's contextual hover columns
(material, stock, emissions). -/
def hover_context : Chart1Table → List (String × ℚ × ℚ)
  | Chart1Table.material rows _ => rows.map (fun r => (r.material, r.stock, r.emissions))
  | Chart1Table.energy _ => []

/-- The summary scalar exactly as claim C5 words it (a refinement
comparison target written from the claim's words, not from the source):
the working records restricted to the selected municipality (all
municipalities if none is selected), then to the TOTAL row of chart-1's
grouping dimension; when that restriction is empty, the sum over all
non-TOTAL rows of that dimension in the same restricted set; divided by
1,000,000. -/
def summary_spec (df : List Row) (metric : Metric) (scenario : Scenario)
    (selected_muni selected_material : Option String) : ℚ :=
  let work := df_filtered df metric selected_material
  let s : List Row := match selected_muni with
    | some m => work.filter (fun r => r.kommunenum == m)
    | none => work
  let isTotalRow : Row → Bool := match chart_mode metric with
    | ChartMode.material => fun r => r.material == "TOTAL"
    | ChartMode.energy_type => fun r => r.energy_carrier == "TOTAL"
  let st := s.filter isTotalRow
  (if st.isEmpty then ((s.filter (fun r => !(isTotalRow r))).map (value_col metric scenario)).sum
   else (st.map (value_col metric scenario)).sum) / 1000000

/-! ### Theorems -/

/-- C3: for every current selection state and every event batch, if the
municipality-reset event ("reset-button") fired, `update_selections`
returns `none` for the selected municipality even if a map click with a
location is in the same batch; symmetrically, if the material-reset event
("reset-material-button") fired, it returns `none` for the selected
material even if a bar-chart click with a category is in the same
batch. -/
theorem C3_reset_wins (map_click bar_click : Option String)
    (triggered : List String) (current : SelState) :
    ("reset-button" ∈ triggered →
      (update_selections map_click bar_click triggered current).muni = none)
  ∧ ("reset-material-button" ∈ triggered →
      (update_selections map_click bar_click triggered current).material = none) := by
  constructor <;> intro h <;> simp [update_selections, h]

/-- Witness for C3 at a concrete batch carrying both stale clicks and both
resets, from a state with both fields set. -/
theorem C3_reset_wins_witness :
    (update_selections (some "1103") (some "steel")
      ["norway-map", "chart-material-type", "reset-button", "reset-material-button"]
      { muni := some "0301", material := some "wood" }).muni = none
  ∧ (update_selections (some "1103") (some "steel")
      ["norway-map", "chart-material-type", "reset-button", "reset-material-button"]
      { muni := some "0301", material := some "wood" }).material = none :=
  ⟨(C3_reset_wins (some "1103") (some "steel")
      ["norway-map", "chart-material-type", "reset-button", "reset-material-button"]
      { muni := some "0301", material := some "wood" }).1 (by decide),
   (C3_reset_wins (some "1103") (some "steel")
      ["norway-map", "chart-material-type", "reset-button", "reset-material-button"]
      { muni := some "0301", material := some "wood" }).2 (by decide)⟩

/-- C8: a selection field not targeted by any event of the batch is
returned unchanged by `update_selections`; a click event whose payload is
absent triggers no transition; hence a batch containing only payload-less
clicks (and no reset) returns the state unchanged. -/
theorem C8_frame (map_click bar_click : Option String)
    (triggered : List String) (current : SelState) :
    (("norway-map" ∉ triggered ∧ "reset-button" ∉ triggered) →
      (update_selections map_click bar_click triggered current).muni = current.muni)
  ∧ (("chart-material-type" ∉ triggered ∧ "reset-material-button" ∉ triggered) →
      (update_selections map_click bar_click triggered current).material = current.material)
  ∧ ((map_click = none ∧ bar_click = none ∧ "reset-button" ∉ triggered ∧
        "reset-material-button" ∉ triggered) →
      update_selections map_click bar_click triggered current = current) := by
  refine ⟨fun h => ?_, fun h => ?_, fun h => ?_⟩
  · simp [update_selections, h.1, h.2]
  · simp [update_selections, h.1, h.2]
  · simp [update_selections, h.1, h.2.1, h.2.2.1, h.2.2.2]

/-- Witness for C8: a dropdown-only batch leaves both fields; a batch of
two payload-less clicks leaves the whole state. -/
theorem C8_frame_witness :
    (update_selections none none ["scenario-dropdown"]
      { muni := some "0301", material := some "wood" }).muni = some "0301"
  ∧ (update_selections none none ["scenario-dropdown"]
      { muni := some "0301", material := some "wood" }).material = some "wood"
  ∧ update_selections none none ["norway-map", "chart-material-type"]
      { muni := some "0301", material := some "wood" }
      = { muni := some "0301", material := some "wood" } :=
  ⟨(C8_frame none none ["scenario-dropdown"]
      { muni := some "0301", material := some "wood" }).1 (by decide),
   (C8_frame none none ["scenario-dropdown"]
      { muni := some "0301", material := some "wood" }).2.1 (by decide),
   (C8_frame none none ["norway-map", "chart-material-type"]
      { muni := some "0301", material := some "wood" }).2.2 (by decide)⟩

/-- C2 (code bug, demonstrated): a single `update_dashboard` call whose
selected material is exactly "TOTAL" leaves the precomputed table for its
(metric, scenario) pair different from its value at the end of startup:
line 194 divides the shared frame's value column by 1,000,000 and rounds
it, in place. -/
theorem C2_precomputed_mutated :
    (update_dashboard df0 munis0 Scenario.mean Metric.material_stock none (some "TOTAL")
        (precomputed_maps df0 munis0)).2 Metric.material_stock Scenario.mean
      ≠ precomputed_maps df0 munis0 Metric.material_stock Scenario.mean := by
  with_unfolding_all decide

/-- C1 (code bug, demonstrated): two `update_dashboard` calls with
identical inputs (scenario `mean`, metric `material_stock`, no selected
municipality, selected material "TOTAL"), the second running on the table
state the first left behind, return different map tables — the first call
rescaled the shared precomputed frame in place, so the second call scales
it again. -/
theorem C1_not_idempotent :
    (update_dashboard df0 munis0 Scenario.mean Metric.material_stock none (some "TOTAL")
        (precomputed_maps df0 munis0)).1
      ≠ (update_dashboard df0 munis0 Scenario.mean Metric.material_stock none (some "TOTAL")
          ((update_dashboard df0 munis0 Scenario.mean Metric.material_stock none
            (some "TOTAL") (precomputed_maps df0 munis0)).2)).1 := by
  with_unfolding_all decide

/-- C9: when the selected material is exactly the string "TOTAL",
`update_dashboard` applies neither the material filter nor the TOTAL
default to the map table: the derived map table keeps exactly the
(municipality, material) row of every row of the precomputed table. -/
theorem C9_total_passthrough (df : List Row) (municipals : List Muni)
    (scenario : Scenario) (metric : Metric) (selected_muni : Option String)
    (maps : Metric → Scenario → List MapRow) :
    ((update_dashboard df municipals scenario metric selected_muni (some "TOTAL")
        maps).1.mapTable).map (fun r => (r.kommunenum, r.material))
      = (maps metric scenario).map (fun r => (r.kommunenum, r.material)) := by
  have h2 : df_map_rows (maps metric scenario) (some "TOTAL") = maps metric scenario := by
    simp [df_map_rows]
  show ((df_map_rows (maps metric scenario) (some "TOTAL")).map scale_map_row).map
      (fun r => (r.kommunenum, r.material)) = _
  rw [h2, List.map_map]
  rfl

/-- The hover-context projection of the material-mode chart-1 table, in a
scenario-free form: the `stock` and `emissions` columns are computed from
the `*_mean` columns only, whatever the scenario. -/
theorem chart1_material_hover_proj (sub : List Row) (metric : Metric) (scenario : Scenario) :
    (chart1_material_rows sub metric scenario).map (fun r => (r.material, r.stock, r.emissions))
      = (firstKeys ((sub.filter (fun r => r.material != "TOTAL")).map (fun r => r.material))).map
          (fun m =>
            (m,
             round1 ((((sub.filter (fun r => r.material != "TOTAL")).filter
                (fun r => r.material == m)).map (fun r => r.material_stock_mean)).sum / 1000000),
             round1 ((((sub.filter (fun r => r.material != "TOTAL")).filter
                (fun r => r.material == m)).map (fun r => r.material_emissions_mean)).sum
                  / 1000000))) := by
  unfold chart1_material_rows
  rw [List.map_map]
  rfl

/-- C10: in material chart mode (metrics `material_stock` and
`material_emissions`), the chart-1 hover context columns `stock` and
`emissions` of `update_dashboard`'s output are the same for every selected
scenario — they are always computed from the mean-scenario columns; the
scenario affects only the primary value column. -/
theorem C10_hover_from_mean (df : List Row) (municipals : List Muni)
    (selected_muni selected_material : Option String)
    (maps : Metric → Scenario → List MapRow) (s1 s2 : Scenario) :
    hover_context (update_dashboard df municipals s1 Metric.material_stock
        selected_muni selected_material maps).1.chart1
      = hover_context (update_dashboard df municipals s2 Metric.material_stock
          selected_muni selected_material maps).1.chart1
  ∧ hover_context (update_dashboard df municipals s1 Metric.material_emissions
        selected_muni selected_material maps).1.chart1
      = hover_context (update_dashboard df municipals s2 Metric.material_emissions
          selected_muni selected_material maps).1.chart1 := by
  constructor
  · show (chart1_material_rows
        (muni_sub (df_filtered df Metric.material_stock selected_material) selected_muni)
        Metric.material_stock s1).map (fun r => (r.material, r.stock, r.emissions))
      = (chart1_material_rows
          (muni_sub (df_filtered df Metric.material_stock selected_material) selected_muni)
          Metric.material_stock s2).map (fun r => (r.material, r.stock, r.emissions))
    rw [chart1_material_hover_proj, chart1_material_hover_proj]
  · show (chart1_material_rows
        (muni_sub (df_filtered df Metric.material_emissions selected_material) selected_muni)
        Metric.material_emissions s1).map (fun r => (r.material, r.stock, r.emissions))
      = (chart1_material_rows
          (muni_sub (df_filtered df Metric.material_emissions selected_material) selected_muni)
          Metric.material_emissions s2).map (fun r => (r.material, r.stock, r.emissions))
    rw [chart1_material_hover_proj, chart1_material_hover_proj]

/-- C6: every map-table row's log input is positive (so its log10 is the
genuine, finite logarithm, never an error or NaN); when the scaled value
is zero, negative, or below the 1e-6 floor, the log column equals the
floor's log, and otherwise it equals the log of the scaled value itself. -/
theorem C6_log_clamp (df : List Row) (municipals : List Muni)
    (scenario : Scenario) (metric : Metric)
    (selected_muni selected_material : Option String)
    (maps : Metric → Scenario → List MapRow) (r : MapOutRow)
    (hr : r ∈ (update_dashboard df municipals scenario metric selected_muni
        selected_material maps).1.mapTable) :
    0 < r.logInput
  ∧ (r.value < 1/1000000 →
      Real.logb 10 (r.logInput : ℝ) = Real.logb 10 ((1/1000000 : ℚ) : ℝ))
  ∧ ((1/1000000 : ℚ) ≤ r.value →
      Real.logb 10 (r.logInput : ℝ) = Real.logb 10 (r.value : ℝ)) := by
  have hmap : (update_dashboard df municipals scenario metric selected_muni
        selected_material maps).1.mapTable
      = (df_map_rows (maps metric scenario) selected_material).map scale_map_row := rfl
  rw [hmap] at hr
  rcases List.mem_map.mp hr with ⟨x, -, hx⟩
  subst hx
  have hli : (scale_map_row x).logInput
      = Max.max ((scale_map_row x).value) (1/1000000 : ℚ) := rfl
  refine ⟨?_, fun h => ?_, fun h => ?_⟩
  · rw [hli]
    exact lt_of_lt_of_le (by norm_num) (le_max_right _ _)
  · rw [hli, max_eq_right (le_of_lt h)]
  · rw [hli, max_eq_left h]

/-- Witness for C6 at a concrete call: Oslo's TOTAL row, scaled value 5. -/
theorem C6_log_clamp_witness :
    r5 ∈ (update_dashboard df0 munis0 Scenario.mean Metric.material_stock none none
        maps5).1.mapTable
  ∧ (0 < r5.logInput
    ∧ (r5.value < 1/1000000 →
        Real.logb 10 (r5.logInput : ℝ) = Real.logb 10 ((1/1000000 : ℚ) : ℝ))
    ∧ ((1/1000000 : ℚ) ≤ r5.value →
        Real.logb 10 (r5.logInput : ℝ) = Real.logb 10 (r5.value : ℝ))) :=
  ⟨by with_unfolding_all decide,
   C6_log_clamp df0 munis0 Scenario.mean Metric.material_stock none none maps5 r5
     (by with_unfolding_all decide)⟩

/-- If a filter keeps nothing, the complementary filter keeps everything. -/
theorem filter_not_of_filter_nil {α : Type} (l : List α) (p : α → Bool)
    (h : l.filter p = []) : l.filter (fun a => !(p a)) = l := by
  rw [List.filter_eq_self]
  intro a ha
  have hpa := List.filter_eq_nil_iff.mp h a ha
  simpa using hpa

/-- The summary's fallback branch sums all rows, which coincides with the
claim's sum over the non-TOTAL rows exactly because the fallback only
fires when there are no TOTAL rows at all. -/
theorem total_branch (s : List Row) (p : Row → Bool) (v : Row → ℚ) :
    (if (s.filter p).isEmpty then (s.map v).sum else ((s.filter p).map v).sum)
      = (if (s.filter p).isEmpty then ((s.filter (fun r => !(p r))).map v).sum
         else ((s.filter p).map v).sum) := by
  by_cases h : (s.filter p).isEmpty
  · rw [if_pos h, if_pos h, filter_not_of_filter_nil s p (List.isEmpty_iff.mp h)]
  · rw [if_neg h, if_neg h]

/-- C5 (counterexample): with the selected municipality the present but
empty string, the source's truthiness check treats it as "no selection"
and sums all of Norway, while the claim as stated restricts to the
(nonexistent) municipality `""` and yields 0. -/
theorem C5_counterexample :
    (update_dashboard df0 munis0 Scenario.mean Metric.material_emissions (some "") none
        (precomputed_maps df0 munis0)).1.summary
      ≠ summary_spec df0 Metric.material_emissions Scenario.mean (some "") none := by
  with_unfolding_all decide

/-- C5 (amended): the summary scalar of `update_dashboard` equals the
claim's formula once "selected municipality" is read through Python
truthiness — a present, non-empty code restricts; an absent or empty one
means all municipalities. -/
theorem C5_summary_formula (df : List Row) (municipals : List Muni)
    (scenario : Scenario) (metric : Metric)
    (selected_muni selected_material : Option String)
    (maps : Metric → Scenario → List MapRow) :
    (update_dashboard df municipals scenario metric selected_muni selected_material
        maps).1.summary
      = summary_spec df metric scenario
          (if truthy selected_muni then selected_muni else none) selected_material := by
  show total_val df metric scenario selected_muni selected_material = _
  cases selected_muni with
  | none =>
    unfold total_val summary_spec muni_sub
    cases metric <;>
      exact congrArg (fun x => x / 1000000) (total_branch _ _ _)
  | some m =>
    by_cases hm : m = ""
    · subst hm
      unfold total_val summary_spec muni_sub
      cases metric <;>
        exact congrArg (fun x => x / 1000000) (total_branch _ _ _)
    · have hie : m.isEmpty = false := by
        rw [Bool.eq_false_iff]
        intro h
        exact hm ((String.isEmpty_iff _).mp h)
      have htr : (if truthy (some m) = true then some m else none) = some m := by
        show (if (!m.isEmpty) = true then some m else none) = some m
        rw [hie]
        rfl
      rw [htr]
      have hsub : muni_sub (df_filtered df metric selected_material) (some m)
          = (df_filtered df metric selected_material).filter
              (fun r => r.kommunenum == m) := by
        unfold muni_sub
        exact if_neg hm
      unfold total_val summary_spec
      rw [hsub]
      cases metric <;>
        exact congrArg (fun x => x / 1000000) (total_branch _ _ _)

/-- `firstKeys` never repeats a key. -/
theorem firstKeys_nodup {α : Type} [DecidableEq α] : ∀ l : List α, (firstKeys l).Nodup
  | [] => List.nodup_nil
  | a :: t => by
    rw [firstKeys]
    refine List.nodup_cons.mpr ⟨?_, List.Nodup.filter _ (firstKeys_nodup t)⟩
    intro hmem
    have hne := (List.mem_filter.mp hmem).2
    simp at hne

/-- The (municipality, material) keys of a precomputed table are exactly
the deduplicated keys of the data, in order. -/
theorem precomputed_maps_keys (df : List Row) (municipals : List Muni)
    (metric : Metric) (scenario : Scenario) :
    (precomputed_maps df municipals metric scenario).map
        (fun r => (r.kommunenum, r.material))
      = firstKeys (df.map (fun r => (r.kommunenum, r.material))) := by
  unfold precomputed_maps
  rw [List.map_map]
  exact List.map_id _

/-- In a table whose (municipality, material) keys are distinct, the rows
of any single material have distinct municipalities. -/
theorem nodup_filter_material (c : String) :
    ∀ tbl : List MapRow,
      ((tbl.map (fun r => (r.kommunenum, r.material))).Nodup) →
      (((tbl.filter (fun r => r.material == c)).map (fun r => r.kommunenum)).Nodup)
  | [] => fun _ => by simp
  | r :: t => fun h => by
    rw [List.map_cons, List.nodup_cons] at h
    rw [List.filter_cons]
    by_cases hc : (r.material == c) = true
    · rw [if_pos hc, List.map_cons, List.nodup_cons]
      refine ⟨?_, nodup_filter_material c t h.2⟩
      intro hmem
      rcases List.mem_map.mp hmem with ⟨r', hr', hk⟩
      have hrt := (List.mem_filter.mp hr').1
      have hrc : r'.material = c := by simpa using (List.mem_filter.mp hr').2
      apply h.1
      refine List.mem_map.mpr ⟨r', hrt, ?_⟩
      have hcc : r.material = c := by simpa using hc
      rw [hk, hrc, hcc]
    · rw [if_neg hc]
      exact nodup_filter_material c t h.2

/-- A present, non-empty, non-"TOTAL" selected material filters the map
table to that material (source lines 185-187). -/
theorem df_map_rows_some (tbl : List MapRow) (m : String)
    (h1 : m ≠ "") (h2 : m ≠ "TOTAL") :
    df_map_rows tbl (some m) = tbl.filter (fun r => r.material == m) := by
  show (if m = "" then
          (if m ≠ "" ∧ m ≠ "TOTAL" then tbl.filter (fun r => r.material == m)
            else tbl).filter (fun r => r.material == "TOTAL")
        else (if m ≠ "" ∧ m ≠ "TOTAL" then tbl.filter (fun r => r.material == m) else tbl))
      = tbl.filter (fun r => r.material == m)
  rw [if_neg h1, if_pos ⟨h1, h2⟩]

/-- A falsy (absent or empty) selected material defaults the map table to
the "TOTAL" rows (source lines 190-191). -/
theorem df_map_rows_falsy (tbl : List MapRow) (selm : Option String)
    (h : truthy selm = false) :
    df_map_rows tbl selm = tbl.filter (fun r => r.material == "TOTAL") := by
  cases selm with
  | none => rfl
  | some m =>
    have h' : (!m.isEmpty) = false := h
    have hm : m = "" := by
      cases hb : m.isEmpty with
      | true => exact (String.isEmpty_iff m).mp hb
      | false => rw [hb] at h'; exact absurd h' (by decide)
    subst hm
    rfl

/-- A present, non-empty, non-"TOTAL" selected material restricts the
working record set to that material (source lines 185-186). -/
theorem df_filtered_some (df : List Row) (metric : Metric) (m : String)
    (h1 : m ≠ "") (h2 : m ≠ "TOTAL") :
    df_filtered df metric (some m)
      = (df_filtered df metric none).filter (fun r => r.material == m) := by
  show (if m ≠ "" ∧ m ≠ "TOTAL" then (df_filtered df metric none).filter
          (fun r => r.material == m) else df_filtered df metric none)
      = (df_filtered df metric none).filter (fun r => r.material == m)
  rw [if_pos ⟨h1, h2⟩]

/-- C4 (counterexample): at the selection whose material is the present
but empty string, `update_dashboard` does not restrict the working record
set to material `""` — Python truthiness treats the empty string as no
selection, so the whole working set survives. -/
theorem C4_counterexample :
    ¬ df_filtered df0 Metric.material_stock (some "")
        = (df_filtered df0 Metric.material_stock none).filter
            (fun r => r.material == "") := by
  with_unfolding_all decide

/-- C4 (amended): for every selection whose material is a present,
non-empty string other than "TOTAL", `update_dashboard` restricts both the
working record set and the map table (drawn from the startup precomputed
table) to that material; for every selection whose material is absent or
the empty string, the map table is restricted to the "TOTAL" rows, and
then it has at most one row per municipality. -/
theorem C4_material_filtering (df : List Row) (municipals : List Muni)
    (scenario : Scenario) (metric : Metric) (selected_muni : Option String)
    (selm : Option String) :
    (∀ m : String, selm = some m → m ≠ "" → m ≠ "TOTAL" →
        df_filtered df metric selm
          = (df_filtered df metric none).filter (fun r => r.material == m)
      ∧ (update_dashboard df municipals scenario metric selected_muni selm
            (precomputed_maps df municipals)).1.mapTable
          = ((precomputed_maps df municipals metric scenario).filter
              (fun r => r.material == m)).map scale_map_row)
  ∧ (truthy selm = false →
        (update_dashboard df municipals scenario metric selected_muni selm
            (precomputed_maps df municipals)).1.mapTable
          = ((precomputed_maps df municipals metric scenario).filter
              (fun r => r.material == "TOTAL")).map scale_map_row
      ∧ ((update_dashboard df municipals scenario metric selected_muni selm
            (precomputed_maps df municipals)).1.mapTable.map
              (fun r => r.kommunenum)).Nodup) := by
  constructor
  · rintro m rfl h1 h2
    refine ⟨df_filtered_some df metric m h1 h2, ?_⟩
    show (df_map_rows (precomputed_maps df municipals metric scenario) (some m)).map
        scale_map_row = _
    rw [df_map_rows_some _ m h1 h2]
  · intro h
    have hmt : (update_dashboard df municipals scenario metric selected_muni selm
          (precomputed_maps df municipals)).1.mapTable
        = ((precomputed_maps df municipals metric scenario).filter
            (fun r => r.material == "TOTAL")).map scale_map_row := by
      show (df_map_rows (precomputed_maps df municipals metric scenario) selm).map
          scale_map_row = _
      rw [df_map_rows_falsy _ _ h]
    refine ⟨hmt, ?_⟩
    rw [hmt]
    have hkm : ((((precomputed_maps df municipals metric scenario).filter
          (fun r => r.material == "TOTAL")).map scale_map_row).map
            (fun r => r.kommunenum))
        = ((precomputed_maps df municipals metric scenario).filter
            (fun r => r.material == "TOTAL")).map (fun r => r.kommunenum) := by
      rw [List.map_map]
      rfl
    rw [hkm]
    apply nodup_filter_material
    rw [precomputed_maps_keys]
    exact firstKeys_nodup _

/-- Witness for C4 at a concrete material ("wood") and at no material. -/
theorem C4_material_filtering_witness :
    (df_filtered df0 Metric.material_stock (some "wood")
        = (df_filtered df0 Metric.material_stock none).filter
            (fun r => r.material == "wood")
      ∧ (update_dashboard df0 munis0 Scenario.mean Metric.material_stock none (some "wood")
            (precomputed_maps df0 munis0)).1.mapTable
          = ((precomputed_maps df0 munis0 Metric.material_stock Scenario.mean).filter
              (fun r => r.material == "wood")).map scale_map_row)
  ∧ ((update_dashboard df0 munis0 Scenario.mean Metric.material_stock none none
          (precomputed_maps df0 munis0)).1.mapTable
        = ((precomputed_maps df0 munis0 Metric.material_stock Scenario.mean).filter
            (fun r => r.material == "TOTAL")).map scale_map_row
      ∧ ((update_dashboard df0 munis0 Scenario.mean Metric.material_stock none none
            (precomputed_maps df0 munis0)).1.mapTable.map
              (fun r => r.kommunenum)).Nodup) :=
  ⟨(C4_material_filtering df0 munis0 Scenario.mean Metric.material_stock none
      (some "wood")).1 "wood" rfl (by decide) (by decide),
   (C4_material_filtering df0 munis0 Scenario.mean Metric.material_stock none none).2 rfl⟩

/-- Filtering a mapped list is mapping the filtered list. -/
theorem filter_map_comm {α β : Type} (f : α → β) (p : β → Bool) (l : List α) :
    (l.map f).filter p = (l.filter (fun a => p (f a))).map f := by
  induction l with
  | nil => rfl
  | cons a t ih =>
    rw [List.map_cons, List.filter_cons, List.filter_cons]
    by_cases hp : p (f a) = true <;> simp [hp, ih]

/-- Summing elementwise-divided values divides the sum. -/
theorem sum_map_div {α : Type} (l : List α) (f : α → ℚ) (c : ℚ) :
    (l.map (fun a => f a / c)).sum = (l.map f).sum / c := by
  induction l with
  | nil => simp
  | cons a t ih => simp [ih, add_div]

/-- Precomputing over the load-scaled data is the same as precomputing
over the raw data and dividing every aggregate by the scaling constant,
whenever the load step divides the relevant value column by it. -/
theorem precomputed_maps_loadRow (raw : List Row) (municipals : List Muni)
    (metric : Metric) (scenario : Scenario) (c : ℚ)
    (hv : ∀ r : Row, value_col metric scenario (loadRow r)
        = value_col metric scenario r / c) :
    precomputed_maps (raw.map loadRow) municipals metric scenario
      = (precomputed_maps raw municipals metric scenario).map
          (fun r => { r with value := r.value / c }) := by
  unfold precomputed_maps
  have hkeys : (raw.map loadRow).map (fun r => (r.kommunenum, r.material))
      = raw.map (fun r => (r.kommunenum, r.material)) := by
    rw [List.map_map]
    rfl
  rw [hkeys, List.map_map]
  apply List.map_congr_left
  intro k _
  have hval : (((raw.map loadRow).filter
        (fun r => r.kommunenum == k.1 && r.material == k.2)).map
          (value_col metric scenario)).sum
      = ((((raw.filter (fun r => r.kommunenum == k.1 && r.material == k.2)).map
          (value_col metric scenario)).sum) / c) := by
    rw [filter_map_comm, List.map_map]
    have hcomp : (value_col metric scenario ∘ loadRow)
        = fun r => value_col metric scenario r / c := funext hv
    rw [hcomp, sum_map_div]
    rfl
  show MapRow.mk k.1 k.2
      ((((raw.map loadRow).filter
        (fun r => r.kommunenum == k.1 && r.material == k.2)).map
          (value_col metric scenario)).sum)
      ((municipals.find? (fun mu => mu.kommunenum == k.1)).map (fun mu => mu.kommunenav))
    = MapRow.mk k.1 k.2
      (((((raw.filter (fun r => r.kommunenum == k.1 && r.material == k.2)).map
          (value_col metric scenario)).sum) / c))
      ((municipals.find? (fun mu => mu.kommunenum == k.1)).map (fun mu => mu.kommunenav))
  rw [hval]

/-- C7: the load step divides exactly the `manufacturing_emissions_*`
columns by 10, once and uniformly, before any aggregation — so every
precomputed manufacturing-emissions aggregate equals the raw sum divided
by 10, while the precomputed aggregates of the two other metrics are
exactly those of the raw data. -/
theorem C7_load_scaling (raw : List Row) (municipals : List Muni) (scenario : Scenario) :
    precomputed_maps (raw.map loadRow) municipals Metric.manufacturing_emissions scenario
      = (precomputed_maps raw municipals Metric.manufacturing_emissions scenario).map
          (fun r => { r with value := r.value / 10 })
  ∧ precomputed_maps (raw.map loadRow) municipals Metric.material_stock scenario
      = precomputed_maps raw municipals Metric.material_stock scenario
  ∧ precomputed_maps (raw.map loadRow) municipals Metric.material_emissions scenario
      = precomputed_maps raw municipals Metric.material_emissions scenario := by
  have hid : ∀ metric, (∀ r : Row, value_col metric scenario (loadRow r)
        = value_col metric scenario r / 1) →
      precomputed_maps (raw.map loadRow) municipals metric scenario
        = precomputed_maps raw municipals metric scenario := by
    intro metric hv
    rw [precomputed_maps_loadRow raw municipals metric scenario 1 hv]
    have hfun : (fun (r : MapRow) => { r with value := r.value / 1 })
        = fun (r : MapRow) => r := by
      funext r
      simp
    rw [hfun, List.map_id']
  refine ⟨?_, ?_, ?_⟩
  · exact precomputed_maps_loadRow raw municipals Metric.manufacturing_emissions scenario 10
      (fun r => by cases scenario <;> rfl)
  · exact hid Metric.material_stock
      (fun r => by cases scenario <;> simp [value_col, loadRow])
  · exact hid Metric.material_emissions
      (fun r => by cases scenario <;> simp [value_col, loadRow])

end MaterialsDashboard
